import Mathlib

/-!
Shallow embedding of `ExternalUriOpenerService.openExternal` from
`src/vs/workbench/contrib/externalUriOpener/common/externalUriOpenerService.ts`.

The single async method is modelled as a pure function of an `Env` record
that supplies the outcomes of every external interaction the method performs
(provider queries, configuration read, URL-hostname derivation, picker
response, delegated opener results).  Alongside the `Except Err Bool` result,
the function records a chronological trace of observable effects: disposal of
a retained opener set, invocation of a delegated opener (with the argument
string actually passed), showing the quick pick, and opening the settings UI.

A URI is represented by its serialized string form: `URI.parse(href)` becomes
`Env.parse href`, and `new URL(targetUri.toString()).hostname` becomes
`Env.urlHostname` applied to that string.  JavaScript exceptions are modelled
with `Except Err`.
-/

/-- Errors thrown by providers, openers or URL parsing (arbitrary JS values
in the source; a string payload suffices for the shallow embedding). -/
abbrev Err := String

/-- `ExternalOpenerEntry` (externalUriOpenerService.ts, lines 19-22): an
opener with a stable `id` and a human-readable `label`.  Its `openExternal`
behavior is supplied by `Env.invoke`, keyed by `id`. -/
structure ExternalOpenerEntry where
  id : String
  label : String
  deriving DecidableEq

/-- `ExternalOpenerSet` (lines 24-27): the disposable bundle of openers
returned by one provider for one request.  The disposal handle is identified
by the position of the provider in the provider list. -/
structure ExternalOpenerSet where
  openers : List ExternalOpenerEntry
  deriving DecidableEq

/-- `ExternalUriOpenerConfiguration`, imported by the source from the sibling
`configuration` module (not under src/).  Its shape is fixed by the use sites
at lines 85-86: a `hostname` field and an `id` field. -/
structure ExternalUriOpenerConfiguration where
  hostname : String
  id : String
  deriving DecidableEq

/-- The setting key `externalUriOpenersSettingId`, imported by the source from
the sibling `configuration` module (not under src/).  Modelled from the spec:
"a single named setting holding an ordered list of hostname, id records"; the
claims only require that the configuration read (line 83) and the settings
reveal (line 124) use this same key, so the literal value is immaterial. -/
def externalUriOpenersSettingId : String := "workbench.externalUriOpeners"

/-- The `opener` field of a pick item (line 93):
`IExternalOpener | 'configureDefault' | undefined`. -/
inductive PickOpener where
  | undef
  | configureDefault
  | opener (o : ExternalOpenerEntry)
  deriving DecidableEq

/-- An element of the array passed to `quickInputService.pick` (lines 94-109):
either a labelled pick item carrying a `PickOpener`, or a visual separator. -/
inductive PickItem where
  | pick (label : String) (opener : PickOpener)
  | separator
  deriving DecidableEq

/-- The item resolved by `quickInputService.pick`: a labelled item (never a
separator, by the typing of `pick`). -/
structure PickedItem where
  label : String
  opener : PickOpener
  deriving DecidableEq

/-- Observable effects of one `openExternal` call, in chronological order. -/
inductive Event where
  /-- The disposal handle of the opener set returned by provider `idx` was
  released (the `DisposableStore` at line 67 disposing it, line 131). -/
  | disposeSet (idx : Nat)
  /-- A gathered opener with the given `id` had its `openExternal` invoked
  with the given argument string (lines 88 and 128). -/
  | invokeOpener (id : String) (arg : String)
  /-- The quick pick was presented with the given items (line 111). -/
  | showPicker (items : List PickItem)
  /-- `preferencesService.openGlobalSettings` was called revealing the given
  setting key with the given edit flag (lines 123-125). -/
  | openSettings (key : String) (edit : Bool)
  deriving DecidableEq

def Event.isDispose : Event → Bool
  | .disposeSet _ => true
  | _ => false

def Event.isInvoke : Event → Bool
  | .invokeOpener _ _ => true
  | _ => false

def Event.isPicker : Event → Bool
  | .showPicker _ => true
  | _ => false

/-- The environment of one `openExternal` call: outcomes of every external
interaction the method performs. -/
structure Env where
  /-- Outcome of `provider.provideExternalOpeners(targetUri)` for each
  registered provider, in registration order (line 70): a rejection, or
  `undefined`, or a defined opener set. -/
  providers : List (Except Err (Option ExternalOpenerSet))
  /-- `configurationService.getValue(key) || []` (line 83). -/
  configOf : String → List ExternalUriOpenerConfiguration
  /-- `URI.parse(href).toString()` (lines 65 and 82): the serialized form of
  the normalized URI. -/
  parse : String → String
  /-- `new URL(s).hostname` (lines 82 and 85); the `URL` constructor can
  throw. -/
  urlHostname : String → Except Err String
  /-- The user response to `quickInputService.pick(items, ...)` (line 111):
  `none` models cancellation. -/
  pick : List PickItem → Option PickedItem
  /-- Result of `opener.openExternal(arg)` for the opener with the given `id`
  (lines 88 and 128); may reject. -/
  invoke : String → String → Except Err Bool

/-- The gathering loop (lines 69-75), started at provider index `k`: query
each provider in order; a rejection propagates immediately; a defined set has
its disposal handle (its provider index) retained and its openers appended,
regardless of whether its openers list is empty; `undefined` contributes
nothing.  Returns the retained handles and the flattened opener list. -/
def gatherFrom (k : Nat) :
    List (Except Err (Option ExternalOpenerSet)) →
    Except Err (List Nat × List ExternalOpenerEntry)
  | [] => .ok ([], [])
  | .error e :: _ => .error e
  | .ok none :: rest => gatherFrom (k + 1) rest
  | .ok (some set) :: rest =>
    match gatherFrom (k + 1) rest with
    | .error e => .error e
    | .ok (hs, os) => .ok (k :: hs, set.openers ++ os)

/-- The configuration scan (lines 84-91): walk the entries in stored order;
at the first entry whose `hostname` equals the URL hostname and whose `id` is
the `id` of some gathered opener, return the first such opener; an entry whose
hostname matches but whose id matches no gathered opener is skipped. -/
def configScan (config : List ExternalUriOpenerConfiguration) (host : String)
    (openers : List ExternalOpenerEntry) : Option ExternalOpenerEntry :=
  match config with
  | [] => none
  | entry :: rest =>
    if entry.hostname == host then
      match openers.find? (fun o => o.id == entry.id) with
      | some o => some o
      | none => configScan rest host openers
    else configScan rest host openers

/-- The pick item array built at lines 94-109: one item per gathered opener,
then the fixed `Default` item, a separator, and the configure item. -/
def mkItems (openers : List ExternalOpenerEntry) : List PickItem :=
  openers.map (fun o => PickItem.pick o.label (PickOpener.opener o)) ++
    [PickItem.pick "Default" PickOpener.undef,
     PickItem.separator,
     PickItem.pick "Configure default opener..." PickOpener.configureDefault]

/-- The body of the `try` block (lines 77-129), given the flattened gathered
openers; returns the result together with the effect trace of the block. -/
def tryBody (env : Env) (href : String) (openers : List ExternalOpenerEntry) :
    Except Err Bool × List Event :=
  if openers.isEmpty then (.ok false, [])
  else
    match env.urlHostname (env.parse href) with
    | .error e => (.error e, [])
    | .ok host =>
      match configScan (env.configOf externalUriOpenersSettingId) host openers with
      | some o => (env.invoke o.id href, [Event.invokeOpener o.id href])
      | none =>
        match env.pick (mkItems openers) with
        | none => (.ok true, [Event.showPicker (mkItems openers)])
        | some p =>
          match p.opener with
          | .undef => (.ok true, [Event.showPicker (mkItems openers)])
          | .configureDefault =>
            (.ok true,
              [Event.showPicker (mkItems openers),
               Event.openSettings externalUriOpenersSettingId true])
          | .opener o =>
            (env.invoke o.id href,
              [Event.showPicker (mkItems openers), Event.invokeOpener o.id href])

/-- `openExternal(href)` (lines 63-133): gather openers (outside the `try`,
so a provider rejection propagates with no cleanup), then run the decision
logic; the `finally` block (lines 130-132) disposes every retained handle no
matter how the `try` block exits. -/
def openExternal (env : Env) (href : String) : Except Err Bool × List Event :=
  match gatherFrom 0 env.providers with
  | .error e => (.error e, [])
  | .ok (handles, openers) =>
    let r := tryBody env href openers
    (r.1, r.2 ++ handles.map Event.disposeSet)

/-- The provider indices whose response is a defined opener set, counting
from `k`: by construction of the gathering loop these are exactly the
retained disposal handles. -/
def definedIdxFrom (k : Nat) :
    List (Except Err (Option ExternalOpenerSet)) → List Nat
  | [] => []
  | .ok (some _) :: rest => k :: definedIdxFrom (k + 1) rest
  | _ :: rest => definedIdxFrom (k + 1) rest

/-! ### Structural lemmas -/

theorem tryBody_empty (env : Env) (href : String) :
    tryBody env href [] = (.ok false, []) := rfl

theorem isEmpty_false_of_ne_nil {l : List ExternalOpenerEntry} (h : l ≠ []) :
    l.isEmpty = false := by
  cases l with
  | nil => exact absurd rfl h
  | cons a t => rfl

theorem tryBody_hostErr (env : Env) (href : String)
    (openers : List ExternalOpenerEntry) (e : Err) (hne : openers ≠ [])
    (hh : env.urlHostname (env.parse href) = .error e) :
    tryBody env href openers = (.error e, []) := by
  unfold tryBody
  simp only [isEmpty_false_of_ne_nil hne, Bool.false_eq_true, if_false, hh]

theorem tryBody_config (env : Env) (href : String)
    (openers : List ExternalOpenerEntry) (host : String)
    (o : ExternalOpenerEntry) (hne : openers ≠ [])
    (hh : env.urlHostname (env.parse href) = .ok host)
    (hs : configScan (env.configOf externalUriOpenersSettingId) host openers = some o) :
    tryBody env href openers = (env.invoke o.id href, [Event.invokeOpener o.id href]) := by
  unfold tryBody
  simp only [isEmpty_false_of_ne_nil hne, Bool.false_eq_true, if_false, hh, hs]

theorem tryBody_pickNone (env : Env) (href : String)
    (openers : List ExternalOpenerEntry) (host : String) (hne : openers ≠ [])
    (hh : env.urlHostname (env.parse href) = .ok host)
    (hs : configScan (env.configOf externalUriOpenersSettingId) host openers = none)
    (hp : env.pick (mkItems openers) = none) :
    tryBody env href openers = (.ok true, [Event.showPicker (mkItems openers)]) := by
  unfold tryBody
  simp only [isEmpty_false_of_ne_nil hne, Bool.false_eq_true, if_false, hh, hs, hp]

theorem tryBody_pickDefault (env : Env) (href : String)
    (openers : List ExternalOpenerEntry) (host lbl : String) (hne : openers ≠ [])
    (hh : env.urlHostname (env.parse href) = .ok host)
    (hs : configScan (env.configOf externalUriOpenersSettingId) host openers = none)
    (hp : env.pick (mkItems openers) = some ⟨lbl, PickOpener.undef⟩) :
    tryBody env href openers = (.ok true, [Event.showPicker (mkItems openers)]) := by
  unfold tryBody
  simp only [isEmpty_false_of_ne_nil hne, Bool.false_eq_true, if_false, hh, hs, hp]

theorem tryBody_pickConfigure (env : Env) (href : String)
    (openers : List ExternalOpenerEntry) (host lbl : String) (hne : openers ≠ [])
    (hh : env.urlHostname (env.parse href) = .ok host)
    (hs : configScan (env.configOf externalUriOpenersSettingId) host openers = none)
    (hp : env.pick (mkItems openers) = some ⟨lbl, PickOpener.configureDefault⟩) :
    tryBody env href openers =
      (.ok true,
        [Event.showPicker (mkItems openers),
         Event.openSettings externalUriOpenersSettingId true]) := by
  unfold tryBody
  simp only [isEmpty_false_of_ne_nil hne, Bool.false_eq_true, if_false, hh, hs, hp]

theorem tryBody_pickOpener (env : Env) (href : String)
    (openers : List ExternalOpenerEntry) (host lbl : String)
    (o : ExternalOpenerEntry) (hne : openers ≠ [])
    (hh : env.urlHostname (env.parse href) = .ok host)
    (hs : configScan (env.configOf externalUriOpenersSettingId) host openers = none)
    (hp : env.pick (mkItems openers) = some ⟨lbl, PickOpener.opener o⟩) :
    tryBody env href openers =
      (env.invoke o.id href,
        [Event.showPicker (mkItems openers), Event.invokeOpener o.id href]) := by
  unfold tryBody
  simp only [isEmpty_false_of_ne_nil hne, Bool.false_eq_true, if_false, hh, hs, hp]

theorem tryBody_no_dispose (env : Env) (href : String)
    (openers : List ExternalOpenerEntry) :
    (tryBody env href openers).2.filter Event.isDispose = [] := by
  unfold tryBody
  repeat' split
  all_goals simp [Event.isDispose]


theorem tryBody_invoke_le_one (env : Env) (href : String)
    (openers : List ExternalOpenerEntry) :
    (tryBody env href openers).2.countP Event.isInvoke ≤ 1 := by
  unfold tryBody
  repeat' split
  all_goals simp [Event.isInvoke, List.countP_cons]

theorem openExternal_ok (env : Env) (href : String)
    (handles : List Nat) (openers : List ExternalOpenerEntry)
    (hg : gatherFrom 0 env.providers = .ok (handles, openers)) :
    openExternal env href =
      ((tryBody env href openers).1,
       (tryBody env href openers).2 ++ handles.map Event.disposeSet) := by
  unfold openExternal
  rw [hg]

theorem definedIdxFrom_ge (ps : List (Except Err (Option ExternalOpenerSet))) :
    ∀ k, ∀ i ∈ definedIdxFrom k ps, k ≤ i := by
  induction ps with
  | nil => intro k i hi; simp [definedIdxFrom] at hi
  | cons r rest ih =>
    intro k i hi
    match r with
    | .error e =>
      have := ih (k + 1) i hi
      omega
    | .ok none =>
      have := ih (k + 1) i hi
      omega
    | .ok (some set) =>
      simp only [definedIdxFrom, List.mem_cons] at hi
      rcases hi with rfl | hi
      · exact Nat.le_refl _
      · have := ih (k + 1) i hi
        omega

theorem definedIdxFrom_nodup (ps : List (Except Err (Option ExternalOpenerSet))) :
    ∀ k, (definedIdxFrom k ps).Nodup := by
  induction ps with
  | nil => intro k; simp [definedIdxFrom]
  | cons r rest ih =>
    intro k
    match r with
    | .error e => exact ih (k + 1)
    | .ok none => exact ih (k + 1)
    | .ok (some set) =>
      refine List.nodup_cons.mpr ⟨fun hmem => ?_, ih (k + 1)⟩
      have := definedIdxFrom_ge rest (k + 1) k hmem
      omega

theorem definedIdxFrom_mem (ps : List (Except Err (Option ExternalOpenerSet))) :
    ∀ k i, i ∈ definedIdxFrom k ps ↔
      k ≤ i ∧ ∃ set, ps.get? (i - k) = some (.ok (some set)) := by
  induction ps with
  | nil =>
    intro k i
    simp [definedIdxFrom]
  | cons r rest ih =>
    intro k i
    match r with
    | .error e =>
      simp only [definedIdxFrom]
      rw [ih (k + 1) i]
      constructor
      · rintro ⟨hk, set, hset⟩
        refine ⟨by omega, set, ?_⟩
        have hik : i - k = (i - (k + 1)) + 1 := by omega
        rw [hik]
        simpa using hset
      · rintro ⟨hk, set, hset⟩
        rcases Nat.eq_or_lt_of_le hk with rfl | hlt
        · simp at hset
        · refine ⟨by omega, set, ?_⟩
          have hik : i - k = (i - (k + 1)) + 1 := by omega
          rw [hik] at hset
          simpa using hset
    | .ok none =>
      simp only [definedIdxFrom]
      rw [ih (k + 1) i]
      constructor
      · rintro ⟨hk, set, hset⟩
        refine ⟨by omega, set, ?_⟩
        have hik : i - k = (i - (k + 1)) + 1 := by omega
        rw [hik]
        simpa using hset
      · rintro ⟨hk, set, hset⟩
        rcases Nat.eq_or_lt_of_le hk with rfl | hlt
        · simp at hset
        · refine ⟨by omega, set, ?_⟩
          have hik : i - k = (i - (k + 1)) + 1 := by omega
          rw [hik] at hset
          simpa using hset
    | .ok (some set) =>
      simp only [definedIdxFrom, List.mem_cons]
      rw [ih (k + 1) i]
      constructor
      · rintro (rfl | ⟨hk, s, hset⟩)
        · exact ⟨Nat.le_refl i, set, by simp⟩
        · refine ⟨by omega, s, ?_⟩
          have hik : i - k = (i - (k + 1)) + 1 := by omega
          rw [hik]
          simpa using hset
      · rintro ⟨hk, s, hset⟩
        rcases Nat.eq_or_lt_of_le hk with rfl | hlt
        · exact Or.inl rfl
        · refine Or.inr ⟨by omega, s, ?_⟩
          have hik : i - k = (i - (k + 1)) + 1 := by omega
          rw [hik] at hset
          simpa using hset

theorem gatherFrom_handles_eq (ps : List (Except Err (Option ExternalOpenerSet))) :
    ∀ k hs os, gatherFrom k ps = .ok (hs, os) → hs = definedIdxFrom k ps := by
  induction ps with
  | nil =>
    intro k hs os h
    simp only [gatherFrom, Except.ok.injEq, Prod.mk.injEq] at h
    simp [definedIdxFrom, h.1]
  | cons r rest ih =>
    intro k hs os h
    match r with
    | .error e => exact absurd h (by simp [gatherFrom])
    | .ok none => exact ih (k + 1) hs os h
    | .ok (some set) =>
      simp only [gatherFrom] at h
      cases hrec : gatherFrom (k + 1) rest with
      | error e => rw [hrec] at h; exact absurd h (by simp)
      | ok pr =>
        rw [hrec] at h
        obtain ⟨hs', os'⟩ := pr
        simp only [Except.ok.injEq, Prod.mk.injEq] at h
        rw [definedIdxFrom, ← h.1]
        rw [ih (k + 1) hs' os' hrec]

theorem gatherFrom_error_of_front_ok
    (pre rest : List (Except Err (Option ExternalOpenerSet))) (e : Err)
    (hpre : ∀ r ∈ pre, ∃ x, r = .ok x) :
    ∀ k, gatherFrom k (pre ++ .error e :: rest) = .error e := by
  induction pre with
  | nil => intro k; rfl
  | cons r pre' ih =>
    intro k
    obtain ⟨x, rfl⟩ := hpre r (List.mem_cons_self r pre')
    have hpre' : ∀ r ∈ pre', ∃ x, r = .ok x :=
      fun r hr => hpre r (List.mem_cons_of_mem _ hr)
    match x with
    | none =>
      simpa only [List.cons_append, gatherFrom] using ih hpre' (k + 1)
    | some set =>
      have heq : gatherFrom k ((Except.ok (some set) :: pre') ++ Except.error e :: rest)
          = match gatherFrom (k + 1) (pre' ++ Except.error e :: rest) with
            | Except.error e => Except.error e
            | Except.ok (hs, os) => Except.ok (k :: hs, set.openers ++ os) := rfl
      rw [heq, ih hpre' (k + 1)]

theorem configScan_first_match
    (host : String) (openers : List ExternalOpenerEntry)
    (entry : ExternalUriOpenerConfiguration)
    (post : List ExternalUriOpenerConfiguration) (o : ExternalOpenerEntry)
    (hent : entry.hostname = host)
    (hfind : openers.find? (fun x => x.id == entry.id) = some o) :
    ∀ pre : List ExternalUriOpenerConfiguration,
      (∀ c ∈ pre, c.hostname = host →
        openers.find? (fun x => x.id == c.id) = none) →
      configScan (pre ++ entry :: post) host openers = some o := by
  intro pre
  induction pre with
  | nil =>
    intro _
    simp only [List.nil_append, configScan, hent, beq_self_eq_true, if_true, hfind]
  | cons c pre' ih =>
    intro hpre
    have hpre' : ∀ c ∈ pre', c.hostname = host →
        openers.find? (fun x => x.id == c.id) = none :=
      fun c hc => hpre c (List.mem_cons_of_mem _ hc)
    simp only [List.cons_append, configScan]
    by_cases hc : c.hostname = host
    · rw [hpre c (List.mem_cons_self c pre') hc]
      simp only [hc, beq_self_eq_true, if_true]
      exact ih hpre'
    · have : (c.hostname == host) = false := beq_eq_false_iff_ne.mpr hc
      rw [this]
      simp only [Bool.false_eq_true, if_false]
      exact ih hpre'

theorem openExternal_filter_dispose (env : Env) (href : String)
    (handles : List Nat) (openers : List ExternalOpenerEntry)
    (hg : gatherFrom 0 env.providers = .ok (handles, openers)) :
    (openExternal env href).2.filter Event.isDispose =
      handles.map Event.disposeSet := by
  rw [openExternal_ok env href handles openers hg]
  simp only [List.filter_append, tryBody_no_dispose, List.nil_append]
  rw [List.filter_eq_self]
  intro a ha
  obtain ⟨i, _, rfl⟩ := List.mem_map.mp ha
  rfl

theorem disposeSet_injective : Function.Injective Event.disposeSet := by
  intro a b h
  cases h
  rfl

theorem filter_picker_disposeMap (hs : List Nat) :
    (hs.map Event.disposeSet).filter Event.isPicker = [] := by
  rw [List.filter_eq_nil_iff]
  intro a ha
  obtain ⟨i, _, rfl⟩ := List.mem_map.mp ha
  simp [Event.isPicker]

theorem filter_invoke_disposeMap (hs : List Nat) :
    (hs.map Event.disposeSet).filter Event.isInvoke = [] := by
  rw [List.filter_eq_nil_iff]
  intro a ha
  obtain ⟨i, _, rfl⟩ := List.mem_map.mp ha
  simp [Event.isInvoke]

/-! ### Claim theorems -/

/-- C1: for every call to `openExternal` that completes the gathering step,
every disposal handle retained during gathering is released exactly once
before the call completes, on every exit path (empty gathered list,
configuration delegation, picker cancellation, Default selection, Configure
selection, delegated opener selection, and delegation that throws): the
dispose events of the trace are exactly one per retained handle. -/
theorem C1_handles_released_exactly_once (env : Env) (href : String)
    (handles : List Nat) (openers : List ExternalOpenerEntry)
    (hg : gatherFrom 0 env.providers = .ok (handles, openers)) :
    (openExternal env href).2.filter Event.isDispose =
      handles.map Event.disposeSet ∧
    ∀ i ∈ handles,
      (openExternal env href).2.count (Event.disposeSet i) = 1 := by
  refine ⟨openExternal_filter_dispose env href handles openers hg, ?_⟩
  intro i hi
  rw [openExternal_ok env href handles openers hg]
  rw [List.count_append]
  have h1 : (tryBody env href openers).2.count (Event.disposeSet i) = 0 := by
    refine List.count_eq_zero.mpr fun hmem => ?_
    have hf : Event.disposeSet i ∈
        (tryBody env href openers).2.filter Event.isDispose :=
      List.mem_filter.mpr ⟨hmem, rfl⟩
    rw [tryBody_no_dispose] at hf
    exact List.not_mem_nil _ hf
  have h2 : (handles.map Event.disposeSet).count (Event.disposeSet i) = 1 := by
    rw [List.count_map_of_injective handles Event.disposeSet disposeSet_injective i]
    have hnd : handles.Nodup := by
      rw [gatherFrom_handles_eq env.providers 0 handles openers hg]
      exact definedIdxFrom_nodup env.providers 0
    exact List.count_eq_one_of_mem hnd hi
  omega

def openerA : ExternalOpenerEntry := ⟨"a", "A"⟩

def openerB : ExternalOpenerEntry := ⟨"b", "B"⟩

/-- Environment for the C1 witness: two retained sets (one of them empty),
a cancelled picker, and an opener that would throw if invoked. -/
def envC1 : Env where
  providers := [.ok (some ⟨[openerA]⟩), .ok none, .ok (some ⟨[]⟩)]
  configOf := fun _ => []
  parse := fun s => s
  urlHostname := fun _ => .ok "example.com"
  pick := fun _ => none
  invoke := fun _ _ => .error "boom"

theorem C1_witness :
    (openExternal envC1 "https://example.com/").2.filter Event.isDispose =
      [0, 2].map Event.disposeSet ∧
    ∀ i ∈ [0, 2],
      (openExternal envC1 "https://example.com/").2.count (Event.disposeSet i) = 1 :=
  C1_handles_released_exactly_once envC1 "https://example.com/" [0, 2] [openerA] rfl

/-- C2: with a non-empty gathered list, the configuration entries are scanned
in stored order; the first entry whose hostname equals the URL hostname and
whose id is the id of some gathered opener causes that opener to be invoked
and its result returned, with no picker shown; entries whose hostname matches
but whose id matches no gathered opener are skipped. -/
theorem C2_config_first_match_delegates (env : Env) (href host : String)
    (handles : List Nat) (openers : List ExternalOpenerEntry)
    (pre post : List ExternalUriOpenerConfiguration)
    (entry : ExternalUriOpenerConfiguration) (o : ExternalOpenerEntry)
    (hg : gatherFrom 0 env.providers = .ok (handles, openers))
    (hne : openers ≠ [])
    (hhost : env.urlHostname (env.parse href) = .ok host)
    (hcfg : env.configOf externalUriOpenersSettingId = pre ++ entry :: post)
    (hpre : ∀ c ∈ pre, c.hostname = host →
      openers.find? (fun x => x.id == c.id) = none)
    (hent : entry.hostname = host)
    (hfind : openers.find? (fun x => x.id == entry.id) = some o) :
    (openExternal env href).1 = env.invoke o.id href ∧
    (openExternal env href).2.filter Event.isPicker = [] ∧
    (openExternal env href).2.filter Event.isInvoke =
      [Event.invokeOpener o.id href] := by
  have hscan : configScan (env.configOf externalUriOpenersSettingId) host openers
      = some o := by
    rw [hcfg]
    exact configScan_first_match host openers entry post o hent hfind pre hpre
  have htb := tryBody_config env href openers host o hne hhost hscan
  rw [openExternal_ok env href handles openers hg, htb]
  refine ⟨rfl, ?_, ?_⟩
  · rw [List.filter_append, filter_picker_disposeMap]
    simp [Event.isPicker]
  · rw [List.filter_append, filter_invoke_disposeMap]
    simp [Event.isInvoke]

/-- Environment for the C2 witness: two gathered openers; the first
configuration entry matches the hostname but no gathered opener id, the
second matches opener `b`. -/
def envC2 : Env where
  providers := [.ok (some ⟨[openerA, openerB]⟩)]
  configOf := fun _ => [⟨"example.com", "zz"⟩, ⟨"example.com", "b"⟩]
  parse := fun s => s
  urlHostname := fun _ => .ok "example.com"
  pick := fun _ => none
  invoke := fun i _ => .ok (i == "b")

theorem C2_witness :
    (openExternal envC2 "https://example.com/").1 =
      envC2.invoke openerB.id "https://example.com/" ∧
    (openExternal envC2 "https://example.com/").2.filter Event.isPicker = [] ∧
    (openExternal envC2 "https://example.com/").2.filter Event.isInvoke =
      [Event.invokeOpener openerB.id "https://example.com/"] :=
  C2_config_first_match_delegates envC2 "https://example.com/" "example.com"
    [0] [openerA, openerB] [⟨"example.com", "zz"⟩] [] ⟨"example.com", "b"⟩ openerB
    rfl (by decide) rfl rfl (by decide) rfl rfl

/-- C3: whenever the flattened gathered opener list is empty (zero providers,
or all providers answering `undefined` or empty sets), `openExternal`
resolves to `false`, no picker is shown, no opener is invoked, and every
retained disposal handle is released. -/
theorem C3_empty_gathered_list_false (env : Env) (href : String)
    (handles : List Nat)
    (hg : gatherFrom 0 env.providers = .ok (handles, [])) :
    openExternal env href = (.ok false, handles.map Event.disposeSet) ∧
    (openExternal env href).2.filter Event.isPicker = [] ∧
    (openExternal env href).2.filter Event.isInvoke = [] := by
  have h := openExternal_ok env href handles [] hg
  rw [tryBody_empty] at h
  simp only [List.nil_append] at h
  exact ⟨h, by rw [h]; exact filter_picker_disposeMap handles,
    by rw [h]; exact filter_invoke_disposeMap handles⟩

/-- Environment for the C3 witness: one provider answering `undefined`, one
answering a defined set whose openers list is empty. -/
def envC3 : Env where
  providers := [.ok none, .ok (some ⟨[]⟩)]
  configOf := fun _ => [⟨"example.com", "a"⟩]
  parse := fun s => s
  urlHostname := fun _ => .ok "example.com"
  pick := fun _ => some ⟨"A", PickOpener.opener openerA⟩
  invoke := fun _ _ => .ok true

theorem C3_witness :
    openExternal envC3 "https://example.com/" =
      (.ok false, [1].map Event.disposeSet) ∧
    (openExternal envC3 "https://example.com/").2.filter Event.isPicker = [] ∧
    (openExternal envC3 "https://example.com/").2.filter Event.isInvoke = [] :=
  C3_empty_gathered_list_false envC3 "https://example.com/" [1] rfl

/-- C4: if a provider rejects partway through the gathering loop, the
rejection propagates to the caller and the whole effect trace is empty: in
particular no disposal handle retained from earlier providers is released
(the cleanup block wraps only the decision logic, not the gathering loop). -/
theorem C4_gathering_rejection_skips_cleanup (env : Env) (href : String)
    (e : Err) (pre rest : List (Except Err (Option ExternalOpenerSet)))
    (hp : env.providers = pre ++ .error e :: rest)
    (hpre : ∀ r ∈ pre, ∃ x, r = .ok x) :
    openExternal env href = (.error e, []) := by
  unfold openExternal
  rw [hp, gatherFrom_error_of_front_ok pre rest e hpre 0]

/-- Environment for the C4 witness: the first provider returns a defined
non-empty set (so its handle is retained), the second rejects. -/
def envC4 : Env where
  providers := [.ok (some ⟨[openerA]⟩), .error "provider boom"]
  configOf := fun _ => []
  parse := fun s => s
  urlHostname := fun _ => .ok "example.com"
  pick := fun _ => none
  invoke := fun _ _ => .ok true

theorem C4_witness :
    openExternal envC4 "https://example.com/" = (.error "provider boom", []) :=
  C4_gathering_rejection_skips_cleanup envC4 "https://example.com/"
    "provider boom" [.ok (some ⟨[openerA]⟩)] []
    rfl
    (fun _r hr => ⟨some ⟨[openerA]⟩, List.mem_singleton.mp hr⟩)

/-- C5: whenever the picker resolves to an item associated with a specific
gathered opener, that opener is invoked exactly once with the original
`href` value, and its result is propagated unchanged as the overall
result. -/
theorem C5_picked_opener_invoked_once (env : Env) (href host lbl : String)
    (handles : List Nat) (openers : List ExternalOpenerEntry)
    (o : ExternalOpenerEntry)
    (hg : gatherFrom 0 env.providers = .ok (handles, openers))
    (hne : openers ≠ [])
    (hhost : env.urlHostname (env.parse href) = .ok host)
    (hscan : configScan (env.configOf externalUriOpenersSettingId) host openers
      = none)
    (hpick : env.pick (mkItems openers) = some ⟨lbl, PickOpener.opener o⟩) :
    (openExternal env href).1 = env.invoke o.id href ∧
    (openExternal env href).2.filter Event.isInvoke =
      [Event.invokeOpener o.id href] := by
  have htb := tryBody_pickOpener env href openers host lbl o hne hhost hscan hpick
  rw [openExternal_ok env href handles openers hg, htb]
  refine ⟨rfl, ?_⟩
  rw [List.filter_append, filter_invoke_disposeMap]
  simp [Event.isInvoke]

/-- Environment for the C5 witness: no configuration entries; the user picks
opener `b`. -/
def envC5 : Env where
  providers := [.ok (some ⟨[openerA]⟩), .ok (some ⟨[openerB]⟩)]
  configOf := fun _ => []
  parse := fun s => s
  urlHostname := fun _ => .ok "example.com"
  pick := fun _ => some ⟨"B", PickOpener.opener openerB⟩
  invoke := fun i _ => .ok (i == "b")

theorem C5_witness :
    (openExternal envC5 "https://example.com/").1 =
      envC5.invoke openerB.id "https://example.com/" ∧
    (openExternal envC5 "https://example.com/").2.filter Event.isInvoke =
      [Event.invokeOpener openerB.id "https://example.com/"] :=
  C5_picked_opener_invoked_once envC5 "https://example.com/" "example.com" "B"
    [0, 1] [openerA, openerB] openerB rfl (by decide) rfl rfl rfl

/-- C6: whenever the picker is shown and the user cancels or selects the
`Default` item, `openExternal` returns `true` and no gathered opener is
invoked. -/
theorem C6_cancel_or_default_true_no_invoke (env : Env) (href host : String)
    (handles : List Nat) (openers : List ExternalOpenerEntry)
    (hg : gatherFrom 0 env.providers = .ok (handles, openers))
    (hne : openers ≠ [])
    (hhost : env.urlHostname (env.parse href) = .ok host)
    (hscan : configScan (env.configOf externalUriOpenersSettingId) host openers
      = none)
    (hpick : env.pick (mkItems openers) = none ∨
      ∃ lbl, env.pick (mkItems openers) = some ⟨lbl, PickOpener.undef⟩) :
    (openExternal env href).1 = .ok true ∧
    (openExternal env href).2.filter Event.isInvoke = [] := by
  have htb : (tryBody env href openers) =
      (.ok true, [Event.showPicker (mkItems openers)]) := by
    rcases hpick with hp | ⟨lbl, hp⟩
    · exact tryBody_pickNone env href openers host hne hhost hscan hp
    · exact tryBody_pickDefault env href openers host lbl hne hhost hscan hp
  rw [openExternal_ok env href handles openers hg, htb]
  refine ⟨rfl, ?_⟩
  rw [List.filter_append, filter_invoke_disposeMap]
  simp [Event.isInvoke]

/-- Environment for the C6 witness: the picker is cancelled. -/
def envC6 : Env where
  providers := [.ok (some ⟨[openerA]⟩)]
  configOf := fun _ => []
  parse := fun s => s
  urlHostname := fun _ => .ok "example.com"
  pick := fun _ => none
  invoke := fun _ _ => .ok false

theorem C6_witness :
    (openExternal envC6 "https://example.com/").1 = .ok true ∧
    (openExternal envC6 "https://example.com/").2.filter Event.isInvoke = [] :=
  C6_cancel_or_default_true_no_invoke envC6 "https://example.com/" "example.com"
    [0] [openerA] rfl (by decide) rfl rfl (Or.inl rfl)

/-- C7: whenever the picker resolves to the `Configure default opener...`
item, the settings UI reveal-and-edit operation is invoked with the
external-URI-openers setting key, no opener is invoked, and the result is
`true`. -/
theorem C7_configure_opens_settings (env : Env) (href host lbl : String)
    (handles : List Nat) (openers : List ExternalOpenerEntry)
    (hg : gatherFrom 0 env.providers = .ok (handles, openers))
    (hne : openers ≠ [])
    (hhost : env.urlHostname (env.parse href) = .ok host)
    (hscan : configScan (env.configOf externalUriOpenersSettingId) host openers
      = none)
    (hpick : env.pick (mkItems openers) =
      some ⟨lbl, PickOpener.configureDefault⟩) :
    (openExternal env href).1 = .ok true ∧
    Event.openSettings externalUriOpenersSettingId true ∈
      (openExternal env href).2 ∧
    (openExternal env href).2.filter Event.isInvoke = [] := by
  have htb := tryBody_pickConfigure env href openers host lbl hne hhost hscan hpick
  rw [openExternal_ok env href handles openers hg, htb]
  refine ⟨rfl, ?_, ?_⟩
  · exact List.mem_append_left _ (List.mem_cons_of_mem _ (List.mem_singleton.mpr rfl))
  · rw [List.filter_append, filter_invoke_disposeMap]
    simp [Event.isInvoke]

/-- Environment for the C7 witness: the user picks the configure item. -/
def envC7 : Env where
  providers := [.ok (some ⟨[openerA]⟩)]
  configOf := fun _ => []
  parse := fun s => s
  urlHostname := fun _ => .ok "example.com"
  pick := fun _ => some ⟨"Configure default opener...", PickOpener.configureDefault⟩
  invoke := fun _ _ => .ok false

theorem C7_witness :
    (openExternal envC7 "https://example.com/").1 = .ok true ∧
    Event.openSettings externalUriOpenersSettingId true ∈
      (openExternal envC7 "https://example.com/").2 ∧
    (openExternal envC7 "https://example.com/").2.filter Event.isInvoke = [] :=
  C7_configure_opens_settings envC7 "https://example.com/" "example.com"
    "Configure default opener..." [0] [openerA] rfl (by decide) rfl rfl rfl

/-- C8: in every single call to `openExternal`, at most one gathered opener
is invoked: the trace never contains more than one invocation event. -/
theorem C8_at_most_one_invocation (env : Env) (href : String) :
    (openExternal env href).2.countP Event.isInvoke ≤ 1 := by
  unfold openExternal
  cases hg : gatherFrom 0 env.providers with
  | error e => simp
  | ok pr =>
    obtain ⟨handles, openers⟩ := pr
    simp only
    rw [List.countP_append]
    have h1 := tryBody_invoke_le_one env href openers
    have h2 : (handles.map Event.disposeSet).countP Event.isInvoke = 0 := by
      refine List.countP_eq_zero.mpr fun a ha => ?_
      obtain ⟨i, _, rfl⟩ := List.mem_map.mp ha
      simp [Event.isInvoke]
    omega

/-- Environment for C9: a single provider answering a defined opener set
whose openers list is empty. -/
def envC9 : Env where
  providers := [.ok (some ⟨[]⟩)]
  configOf := fun _ => []
  parse := fun s => s
  urlHostname := fun _ => .ok "example.com"
  pick := fun _ => none
  invoke := fun _ _ => .ok true

/-- C9 counterexample: the claim says a defined set whose openers list is
empty has no disposal handle retained; in the code `toDispose.add(set)` runs
for every defined set before `set.openers` is inspected (lines 71-73), so
provider 0's handle is retained — and hence released — even though its set is
empty: a dispose event for it appears in the trace. -/
theorem C9_counterexample :
    envC9.providers.get? 0 = some (.ok (some ⟨[]⟩)) ∧
    Event.disposeSet 0 ∈ (openExternal envC9 "https://example.com/").2 := by
  refine ⟨rfl, ?_⟩
  have h : openExternal envC9 "https://example.com/" =
      (.ok false, [Event.disposeSet 0]) := rfl
  rw [h]
  exact List.mem_singleton.mpr rfl

/-- C9 (amended): during a gathering step that completes, a disposal handle
is retained — and hence a dispose event emitted — for provider `i` exactly
when that provider returned a defined opener set, regardless of whether the
set's openers list is empty. -/
theorem C9_handle_retained_iff_defined_set (env : Env) (href : String)
    (handles : List Nat) (openers : List ExternalOpenerEntry) (i : Nat)
    (hg : gatherFrom 0 env.providers = .ok (handles, openers)) :
    Event.disposeSet i ∈ (openExternal env href).2 ↔
      ∃ set, env.providers.get? i = some (.ok (some set)) := by
  rw [openExternal_ok env href handles openers hg, List.mem_append]
  have hmemh : i ∈ handles ↔
      ∃ set, env.providers.get? i = some (.ok (some set)) := by
    rw [gatherFrom_handles_eq env.providers 0 handles openers hg]
    rw [definedIdxFrom_mem env.providers 0 i]
    simp
  constructor
  · rintro (hmem | hmem)
    · exfalso
      have hf : Event.disposeSet i ∈
          (tryBody env href openers).2.filter Event.isDispose :=
        List.mem_filter.mpr ⟨hmem, rfl⟩
      rw [tryBody_no_dispose] at hf
      exact List.not_mem_nil _ hf
    · obtain ⟨j, hj, hji⟩ := List.mem_map.mp hmem
      obtain rfl : j = i := disposeSet_injective hji
      exact hmemh.mp hj
  · intro hset
    exact Or.inr (List.mem_map_of_mem Event.disposeSet (hmemh.mpr hset))

theorem C9_witness :
    Event.disposeSet 0 ∈ (openExternal envC9 "https://example.com/").2 ↔
      ∃ set, envC9.providers.get? 0 = some (.ok (some set)) :=
  C9_handle_retained_iff_defined_set envC9 "https://example.com/" [0] [] 0 rfl

/-- C10: on the configuration-match delegation path the opener is invoked
with the original raw `href` string exactly as passed to `openExternal`, not
with the re-serialized form of the parsed URI: the single invocation event
carries `href`, and when normalization changes the string, no invocation
with the normalized form occurs. -/
theorem C10_config_delegation_uses_raw_href (env : Env) (href host : String)
    (handles : List Nat) (openers : List ExternalOpenerEntry)
    (o : ExternalOpenerEntry)
    (hg : gatherFrom 0 env.providers = .ok (handles, openers))
    (hne : openers ≠ [])
    (hhost : env.urlHostname (env.parse href) = .ok host)
    (hscan : configScan (env.configOf externalUriOpenersSettingId) host openers
      = some o) :
    (openExternal env href).2.filter Event.isInvoke =
      [Event.invokeOpener o.id href] ∧
    (env.parse href ≠ href →
      Event.invokeOpener o.id (env.parse href) ∉ (openExternal env href).2) := by
  have htb := tryBody_config env href openers host o hne hhost hscan
  have hfilter : (openExternal env href).2.filter Event.isInvoke =
      [Event.invokeOpener o.id href] := by
    rw [openExternal_ok env href handles openers hg, htb]
    rw [List.filter_append, filter_invoke_disposeMap]
    simp [Event.isInvoke]
  refine ⟨hfilter, fun hraw hmem => ?_⟩
  have hf : Event.invokeOpener o.id (env.parse href) ∈
      (openExternal env href).2.filter Event.isInvoke :=
    List.mem_filter.mpr ⟨hmem, rfl⟩
  rw [hfilter, List.mem_singleton] at hf
  exact hraw (by injection hf)

/-- Environment for the C10 witness: URI normalization appends a trailing
slash, so the normalized string differs from the raw `href`; a configuration
entry delegates to opener `a`. -/
def envC10 : Env where
  providers := [.ok (some ⟨[openerA]⟩)]
  configOf := fun _ => [⟨"example.com", "a"⟩]
  parse := fun s => s ++ "/"
  urlHostname := fun _ => .ok "example.com"
  pick := fun _ => none
  invoke := fun _ _ => .ok true

theorem C10_witness :
    (openExternal envC10 "https://example.com").2.filter Event.isInvoke =
      [Event.invokeOpener openerA.id "https://example.com"] ∧
    (envC10.parse "https://example.com" ≠ "https://example.com" →
      Event.invokeOpener openerA.id (envC10.parse "https://example.com") ∉
        (openExternal envC10 "https://example.com").2) :=
  C10_config_delegation_uses_raw_href envC10 "https://example.com"
    "example.com" [0] [openerA] openerA rfl (by decide) rfl rfl
